import Mathlib

/-!
# disgord: roles, the connected-guild set and one-shot handlers

A shallow embedding of `role.go` (the `Role` entity, its copy and
synchronisation methods and the REST call `DeleteGuildRole`) together with the
parts of the client exercised by `client_test.go`.

Conventions of the embedding:

* Go pointer receivers become explicit state passing: a method that may write
  through `r *Role` returns the receiver after the call.
* `CopyOverTo` writes through its argument, which may be the receiver itself.
  `Store.CopyOverTo` runs it on a store of role objects addressed by pointers,
  where the two may be the same object; `Role.CopyOverTo` is the value the call
  leaves in its argument, which is what `saveToDiscord` and `Duplicate` use.
* A Go `error` is `Option Error` (`none` is `nil`).
* `Session`, `httd.Deleter` are interfaces; they are records of functions that
  thread the collaborator's own state, so a collaborator may answer
  differently on every call.
* A nil pointer dereference is the outcome `Exec.panic`.
* `Lockable` is a mutex with no data; `RLock/Lock/RUnlock/Unlock`, guarded by
  `constant.LockedMethods`, do not touch any field and are left out of the
  embedding.
-/

namespace Disgord

/-! ## Identifiers and errors -/

/-- Snowflake identifiers (`snowflake.ID`, an unsigned 64 bit integer). Only
equality and the zero test are used, never arithmetic. -/
abbrev Snowflake := Nat

/-- The method `Snowflake.Empty` of the snowflake library: the zero id is
the empty id. -/
def Snowflake.Empty (s : Snowflake) : Bool := s == 0

/-- Go `error` values met in `role.go`. `MissingSnowflake` and
`UnsupportedType` are what `newErrorMissingSnowflake` and
`newErrorUnsupportedType` build, `New` is `errors.New`, and `Foreign` stands
for any error produced by a collaborator (transport, rate limiter). -/
inductive Error where
  | MissingSnowflake (info : String)
  | UnsupportedType (info : String)
  | New (msg : String)
  | Foreign (code : Nat)
deriving DecidableEq, Repr

def newErrorMissingSnowflake (info : String) : Error := Error.MissingSnowflake info

def newErrorUnsupportedType (info : String) : Error := Error.UnsupportedType info

/-- Recognises the missing-snowflake (MissingIdentifier) error kind. -/
def Error.isMissingSnowflake : Error → Bool
  | Error.MissingSnowflake _ => true
  | _ => false

/-- Outcome of running a Go function: it returns, or it panics. -/
inductive Exec (α : Type) where
  | ret (a : α)
  | panic (msg : String)
deriving DecidableEq, Repr

/-! ## The Role entity -/

/-- The struct `Role` of `role.go` (the embedded `Lockable` carries no data).
The unsigned fields `Color`, `Position` and `Permissions` are natural numbers:
they are only copied and compared, never computed with. -/
structure Role where
  ID : Snowflake
  Name : String
  Color : Nat
  Hoist : Bool
  Position : Nat
  Permissions : Nat
  Managed : Bool
  Mentionable : Bool
  guildID : Snowflake
  copyOf : Snowflake
deriving DecidableEq, Repr

/-- `NewRole` returns `&Role{}`: every field has its zero value. -/
def NewRole : Role :=
  { ID := 0, Name := "", Color := 0, Hoist := false, Position := 0, Permissions := 0,
    Managed := false, Mentionable := false, guildID := 0, copyOf := 0 }

/-- A value of interface type `interface{}`: nil, a `*Role`, or a value of
some other dynamic type (identified by a tag). -/
inductive Interface where
  | Nil
  | Role (role : Role)
  | Other (typeTag : Nat)
deriving DecidableEq, Repr

/-- A value of interface type `discordSaver`: nil, a `*Role`, or another
entity kind that implements the interface (identified by a tag). -/
inductive discordSaver where
  | Nil
  | Role (role : Role)
  | Other (typeTag : Nat)
deriving DecidableEq, Repr

/-- `SetGuildID`, whose body is the single assignment `r.ID = id`. -/
def Role.SetGuildID (r : Role) (id : Snowflake) : Role :=
  { r with ID := id }

/-- `CopyOverTo`, seen from its argument: the argument after the call and the
error. The assignments are those of the source, in order. What the call does
to the receiver, which may be the very object passed as argument, is given by
`Store.CopyOverTo` below. -/
def Role.CopyOverTo (r : Role) (other : Interface) : Interface × Option Error :=
  match other with
  | Interface.Nil =>
    (Interface.Nil, some (newErrorUnsupportedType "given interface\x7b\x7d was not a *Role"))
  | Interface.Other t =>
    (Interface.Other t, some (newErrorUnsupportedType "given interface\x7b\x7d was not a *Role"))
  | Interface.Role role =>
    let role := { role with ID := r.ID }
    let role := { role with Name := r.Name }
    let role := { role with Color := r.Color }
    let role := { role with Hoist := r.Hoist }
    let role := { role with Position := r.Position }
    let role := { role with Permissions := r.Permissions }
    let role := { role with Managed := r.Managed }
    let role := { role with Mentionable := r.Mentionable }
    let role := { role with guildID := r.guildID }
    let role := { role with copyOf := r.ID }
    (Interface.Role role, none)

/-- A pointer to a role object (`*Role`). -/
abbrev RolePtr := Nat

/-- The store of role objects: the role each pointer addresses. -/
abbrev Store := RolePtr → Role

/-- An assignment `p.field = v` through a pointer: the object at `p` is
replaced by `f` of itself, every other object stays. -/
def Store.assign (mem : Store) (p : RolePtr) (f : Role → Role) : Store :=
  fun q => if q = p then f (mem q) else mem q

/-- A value of interface type `interface{}` in a store: nil, a pointer to a
role, or a value of some other dynamic type. -/
inductive InterfaceRef where
  | Nil
  | Role (role : RolePtr)
  | Other (typeTag : Nat)
deriving DecidableEq, Repr

/-- `CopyOverTo` on a store: `r` is the receiver pointer and `other` may hold
that same pointer. Every assignment of the source is one step; its right-hand
side reads the receiver in the store as the earlier assignments left it.
Returns the store after the call and the error. -/
def Store.CopyOverTo (mem : Store) (r : RolePtr) (other : InterfaceRef) : Store × Option Error :=
  match other with
  | InterfaceRef.Nil =>
    (mem, some (newErrorUnsupportedType "given interface\x7b\x7d was not a *Role"))
  | InterfaceRef.Other _ =>
    (mem, some (newErrorUnsupportedType "given interface\x7b\x7d was not a *Role"))
  | InterfaceRef.Role role =>
    let mem := mem.assign role (fun o => { o with ID := (mem r).ID })
    let mem := mem.assign role (fun o => { o with Name := (mem r).Name })
    let mem := mem.assign role (fun o => { o with Color := (mem r).Color })
    let mem := mem.assign role (fun o => { o with Hoist := (mem r).Hoist })
    let mem := mem.assign role (fun o => { o with Position := (mem r).Position })
    let mem := mem.assign role (fun o => { o with Permissions := (mem r).Permissions })
    let mem := mem.assign role (fun o => { o with Managed := (mem r).Managed })
    let mem := mem.assign role (fun o => { o with Mentionable := (mem r).Mentionable })
    let mem := mem.assign role (fun o => { o with guildID := (mem r).guildID })
    let mem := mem.assign role (fun o => { o with copyOf := (mem r).ID })
    (mem, none)

/-- `Duplicate`: a fresh role receives a copy of the receiver; the error of
`CopyOverTo` is dropped, as in the source. -/
def Role.Duplicate (r : Role) : Role :=
  match (r.CopyOverTo (Interface.Role NewRole)).1 with
  | Interface.Role duplicate => duplicate
  | _ => NewRole

def Role.getDiscordID (r : Role) : Snowflake := r.ID

/-- `isACopyOf`: the type assertion `obj.(*Role)` followed by the comparison. -/
def Role.isACopyOf (r : Role) (obj : discordSaver) : Bool :=
  match obj with
  | discordSaver.Role or => r.copyOf == or.ID
  | _ => false

/-! ## The session -/

/-- `CreateGuildRoleParams` of `role.go`. -/
structure CreateGuildRoleParams where
  Name : String
  Permissions : Nat
  Color : Nat
  Hoist : Bool
  Mentionable : Bool
deriving DecidableEq, Repr

/-- The two methods of the `Session` interface that `role.go` calls. `σ` is the
session's own state; each method returns its Go results and the next state.
`CreateGuildRole` returns the pair `(ret *Role, err error)`. -/
structure Session (σ : Type) where
  CreateGuildRole : σ → Snowflake → CreateGuildRoleParams → (Option Role × Option Error) × σ
  DeleteGuildRole : σ → Snowflake → Snowflake → Option Error × σ

/-- A call made on the session, with its arguments. -/
inductive SessionCall where
  | CreateGuildRole (guildID : Snowflake) (params : CreateGuildRoleParams)
  | DeleteGuildRole (guildID roleID : Snowflake)
deriving DecidableEq, Repr

/-- What a synchronisation method leaves behind when it returns: the receiver,
the returned error, the calls made on the session (in order) and the session
state. -/
structure Effect (σ : Type) where
  r : Role
  err : Option Error
  calls : List SessionCall
  st : σ

/-- `saveToDiscord`: the guard on `guildID`, then the create branch for a nil
`changes` and the refusal for any other `changes`. -/
def Role.saveToDiscord {σ : Type} (r : Role) (session : Session σ) (st : σ)
    (changes : discordSaver) : Exec (Effect σ) :=
  if r.guildID.Empty then
    Exec.ret { r := r, err := some (newErrorMissingSnowflake "role has no guildID"),
               calls := [], st := st }
  else
    match changes with
    | discordSaver.Nil =>
      let params : CreateGuildRoleParams :=
        { Name := r.Name, Permissions := r.Permissions, Color := r.Color, Hoist := r.Hoist,
          Mentionable := r.Mentionable }
      let res := session.CreateGuildRole st r.guildID params
      let calls := [SessionCall.CreateGuildRole r.guildID params]
      match res.1.2 with
      | some e => Exec.ret { r := r, err := some e, calls := calls, st := res.2 }
      | none =>
        match res.1.1 with
        | none => Exec.panic "invalid memory address or nil pointer dereference"
        | some role =>
          match role.CopyOverTo (Interface.Role r) with
          | (Interface.Role r', err) => Exec.ret { r := r', err := err, calls := calls, st := res.2 }
          | (_, err) => Exec.ret { r := r, err := err, calls := calls, st := res.2 }
    | _ =>
      Exec.ret { r := r,
                 err := some (Error.New
                   "disgord.Role objects does not currently support SaveToDiscord abstraction"),
                 calls := [], st := st }

/-- `deleteFromDiscord`. -/
def Role.deleteFromDiscord {σ : Type} (r : Role) (session : Session σ) (st : σ) : Effect σ :=
  if r.ID.Empty then
    { r := r, err := some (newErrorMissingSnowflake "role has no ID"), calls := [], st := st }
  else if r.guildID.Empty then
    { r := r, err := some (newErrorMissingSnowflake "role has no guildID"), calls := [], st := st }
  else
    let res := session.DeleteGuildRole st r.guildID r.ID
    { r := r, err := res.1, calls := [SessionCall.DeleteGuildRole r.guildID r.ID], st := res.2 }

/-! ## The REST call DeleteGuildRole -/

/-- The fields of `httd.Request` that `DeleteGuildRole` fills in. -/
structure Request where
  Ratelimiter : String
  Endpoint : String
deriving DecidableEq, Repr

/-- The part of `http.Response` that is read. -/
structure Response where
  StatusCode : Int
deriving DecidableEq, Repr

/-- The constant `http.StatusNoContent`. -/
def StatusNoContent : Int := 204

/-- The interface `httd.Deleter`: `Delete` returns `(resp, body, err)` and the
next state of the client. -/
structure Deleter (κ : Type) where
  Delete : κ → Request → (Option Response × List Nat × Option Error) × κ

/-- The helpers `ratelimitGuildRoles` and `endpoint.GuildRole`, which build the
bucket key and the endpoint path; their definitions are not in `role.go`. -/
structure Routes where
  ratelimitGuildRoles : Snowflake → String
  GuildRole : Snowflake → Snowflake → String

/-- `DeleteGuildRole`: returns the error and the client's next state. -/
def DeleteGuildRole {κ : Type} (routes : Routes) (client : Deleter κ) (k : κ)
    (guildID roleID : Snowflake) : Exec (Option Error × κ) :=
  let res := client.Delete k
    { Ratelimiter := routes.ratelimitGuildRoles guildID,
      Endpoint := routes.GuildRole guildID roleID }
  match res.1.2.2 with
  | some e => Exec.ret (some e, res.2)
  | none =>
    match res.1.1 with
    | none => Exec.panic "invalid memory address or nil pointer dereference"
    | some resp =>
      if resp.StatusCode ≠ StatusNoContent then
        Exec.ret (some (Error.New
          "Could not remove role. Do you have the MANAGE_ROLES permission?"), res.2)
      else
        Exec.ret (none, res.2)

/-! ## The connected-guild set -/

/-- Modelled from the spec: the guild carried by a guild-create event
(`NewPartialGuild` in `client_test.go`; its declaration is not among the
sources). Only the identifier is read. -/
structure Guild where
  ID : Snowflake
deriving DecidableEq, Repr

/-- Modelled from the spec: `NewPartialGuild`, a guild known only by its id. -/
def NewPartialGuild (id : Snowflake) : Guild := { ID := id }

/-- Modelled from the spec: the event "entity became available" (`GuildCreate`
in `client_test.go`). -/
structure GuildCreate where
  Guild : Guild
deriving DecidableEq, Repr

/-- Modelled from the spec: the unavailable guild of a guild-delete event. -/
structure GuildUnavailable where
  ID : Snowflake
deriving DecidableEq, Repr

/-- Modelled from the spec: the event "entity became unavailable"
(`GuildDelete` in `client_test.go`). -/
structure GuildDelete where
  UnavailableGuild : GuildUnavailable
deriving DecidableEq, Repr

/-- Modelled from the spec: the client's Connected-Entity Set (the client is
constructed by `NewClient`, whose source is missing). The set is kept as the
sequence of connected guild ids. -/
structure Client where
  connectedGuilds : List Snowflake
deriving DecidableEq, Repr

/-- Modelled from the spec: `NewClient`, whose code is missing; a new client has
zero connected entities. -/
def NewClient : Client := { connectedGuilds := [] }

/-- Modelled from the spec: `handlerAddToConnectedGuilds`, whose code is
missing. "Extract the entity's identifier; if already present in the
Connected-Entity Set, the call is a no-op; otherwise insert." -/
def Client.handlerAddToConnectedGuilds (c : Client) (evt : GuildCreate) : Client :=
  let id := evt.Guild.ID
  if id ∈ c.connectedGuilds then c
  else { c with connectedGuilds := c.connectedGuilds ++ [id] }

/-- Modelled from the spec: `handlerRemoveFromConnectedGuilds`, whose code is
missing. "Extract the identifier; if absent, no-op; otherwise remove." -/
def Client.handlerRemoveFromConnectedGuilds (c : Client) (evt : GuildDelete) : Client :=
  let id := evt.UnavailableGuild.ID
  if id ∈ c.connectedGuilds then
    { c with connectedGuilds := c.connectedGuilds.filter (fun g => g != id) }
  else c

/-- Modelled from the spec: `GetConnectedGuilds`, whose code is missing; it
returns a snapshot of the current membership. -/
def Client.GetConnectedGuilds (c : Client) : List Snowflake := c.connectedGuilds

/-! ## The event dispatcher -/

/-- Modelled from the spec: a handler is a callable; it is identified by a
number and every invocation is recorded. -/
abbrev Handler := Nat

/-- Modelled from the spec: a listener registry, a mapping from event name to
the ordered sequence of handlers registered under it (insertion order). Each
event name occurs at most once as a key. -/
abbrev Registry := List (String × List Handler)

/-- Modelled from the spec: the handlers registered under an event name. -/
def Registry.handlers (m : Registry) (evtName : String) : List Handler :=
  match m.find? (fun e => e.1 == evtName) with
  | some e => e.2
  | none => []

/-- Modelled from the spec: appending a handler to the sequence of an event
name, creating the key when it is absent. -/
def Registry.register (m : Registry) (evtName : String) (h : Handler) : Registry :=
  if m.any (fun e => e.1 == evtName) then
    m.map (fun e => if e.1 == evtName then (e.1, e.2 ++ [h]) else e)
  else
    m ++ [(evtName, [h])]

/-- Modelled from the spec: deleting the key of an event name. -/
def Registry.delete (m : Registry) (evtName : String) : Registry :=
  m.filter (fun e => e.1 != evtName)

/-- Modelled from the spec: the Event Dispatcher (`c.evtDispatch` in
`client_test.go`; its declaration is not among the sources) with its two
registries, recurring and one-shot. -/
structure Dispatcher where
  listeners : Registry
  listenOnceOnly : Registry
deriving DecidableEq, Repr

/-- Modelled from the spec: the dispatcher of a new client has no listeners. -/
def NewDispatcher : Dispatcher := { listeners := [], listenOnceOnly := [] }

/-- Modelled from the spec: `On`, "appends to the recurring registry for that
name". -/
def Dispatcher.On (d : Dispatcher) (evtName : String) (h : Handler) : Dispatcher :=
  { d with listeners := d.listeners.register evtName h }

/-- Modelled from the spec: `Once`, "appends to the one-shot registry for that
name". -/
def Dispatcher.Once (d : Dispatcher) (evtName : String) (h : Handler) : Dispatcher :=
  { d with listenOnceOnly := d.listenOnceOnly.register evtName h }

/-- Modelled from the spec: `triggerHandlers`, whose code is missing. "For the
given event name, invokes every currently-registered recurring handler, and
invokes and then atomically removes every currently-registered one-shot
handler for that name." Returns the dispatcher after the call and the
handlers invoked, in order. -/
def Dispatcher.triggerHandlers (d : Dispatcher) (evtName : String) : Dispatcher × List Handler :=
  let recurring := d.listeners.handlers evtName
  let once := d.listenOnceOnly.handlers evtName
  ({ d with listenOnceOnly := d.listenOnceOnly.delete evtName }, recurring ++ once)

/-! ## Concrete collaborators used in the worked examples -/

/-- A role linked to guild 7, not yet created on the server. -/
def draftRole : Role :=
  { NewRole with Name := "draft", Color := 3, guildID := 7, copyOf := 9 }

/-- The role the server answers with: id 42, name "X", in guild 7. -/
def serverRole : Role :=
  { NewRole with ID := 42, Name := "X", guildID := 7 }

/-- A session that creates `serverRole` and deletes with success. -/
def okSession : Session Nat :=
  { CreateGuildRole := fun n _ _ => ((some serverRole, none), n + 1),
    DeleteGuildRole := fun n _ _ => (none, n + 1) }

/-- A session whose every call fails with a transport error. -/
def failingSession : Session Nat :=
  { CreateGuildRole := fun n _ _ => ((none, some (Error.Foreign 429)), n + 1),
    DeleteGuildRole := fun n _ _ => (some (Error.Foreign 429), n + 1) }

/-- A store whose role at pointer 0 has id 42 and was copied from role 9. -/
def selfStore : Store :=
  fun _ => { NewRole with ID := 42, Name := "X", guildID := 7, copyOf := 9 }

/-- A store with the server role at pointer 0 and the draft role elsewhere. -/
def pairStore : Store :=
  fun p => if p = 0 then serverRole else draftRole

/-- Routes with the paths of the Discord API. -/
def discordRoutes : Routes :=
  { ratelimitGuildRoles := fun g => "g:" ++ toString g ++ ":r",
    GuildRole := fun g r => "/guilds/" ++ toString g ++ "/roles/" ++ toString r }

/-- A transport that answers every delete with the given status and no error. -/
def statusDeleter (status : Int) : Deleter Nat :=
  { Delete := fun n _ => ((some { StatusCode := status }, [], none), n + 1) }

/-! ## Theorems: saving a role -/

/-- C1: when the role has a guild id and the session's `CreateGuildRole`
answers with a role `s` and no error, `saveToDiscord` with nil changes returns
no error, makes that one call, and leaves in the receiver every field of `s`,
with `copyOf` equal to the id of `s`. -/
theorem saveToDiscord_create_copies_back {σ : Type} (r s : Role) (session : Session σ)
    (st st' : σ) (hg : r.guildID.Empty = false)
    (hs : session.CreateGuildRole st r.guildID
        { Name := r.Name, Permissions := r.Permissions, Color := r.Color, Hoist := r.Hoist,
          Mentionable := r.Mentionable } = ((some s, none), st')) :
    ∃ eff : Effect σ, r.saveToDiscord session st discordSaver.Nil = Exec.ret eff ∧
      eff.err = none ∧
      eff.r.ID = s.ID ∧ eff.r.Name = s.Name ∧ eff.r.Color = s.Color ∧ eff.r.Hoist = s.Hoist ∧
      eff.r.Position = s.Position ∧ eff.r.Permissions = s.Permissions ∧
      eff.r.Managed = s.Managed ∧ eff.r.Mentionable = s.Mentionable ∧
      eff.r.guildID = s.guildID ∧ eff.r.copyOf = s.ID := by
  simp [Role.saveToDiscord, hg, hs, Role.CopyOverTo]

/-- C1, worked example: the server answers `{id: 42, name: "X"}` to a role of
guild 7; afterwards the role has id 42, name "X" and `copyOf` 42. -/
theorem saveToDiscord_create_copies_back_witness :
    draftRole.guildID.Empty = false ∧
    okSession.CreateGuildRole 0 draftRole.guildID
        { Name := draftRole.Name, Permissions := draftRole.Permissions,
          Color := draftRole.Color, Hoist := draftRole.Hoist,
          Mentionable := draftRole.Mentionable } = ((some serverRole, none), 1) ∧
    ∃ eff : Effect Nat, draftRole.saveToDiscord okSession 0 discordSaver.Nil = Exec.ret eff ∧
      eff.err = none ∧
      eff.r.ID = 42 ∧ eff.r.Name = "X" ∧ eff.r.Color = serverRole.Color ∧
      eff.r.Hoist = serverRole.Hoist ∧
      eff.r.Position = serverRole.Position ∧ eff.r.Permissions = serverRole.Permissions ∧
      eff.r.Managed = serverRole.Managed ∧ eff.r.Mentionable = serverRole.Mentionable ∧
      eff.r.guildID = serverRole.guildID ∧ eff.r.copyOf = 42 :=
  ⟨by decide, rfl,
    saveToDiscord_create_copies_back draftRole serverRole okSession 0 1 (by decide) rfl⟩

/-- C2: a role with an empty guild id is refused, whatever the changes
argument: `saveToDiscord` returns a missing-snowflake error, makes no call on
the session (whose state is untouched) and leaves the role as it was. -/
theorem saveToDiscord_missing_guildID {σ : Type} (r : Role) (session : Session σ) (st : σ)
    (changes : discordSaver) (hg : r.guildID.Empty = true) :
    ∃ eff : Effect σ, r.saveToDiscord session st changes = Exec.ret eff ∧
      (∃ e, eff.err = some e ∧ e.isMissingSnowflake = true) ∧
      eff.calls = [] ∧ eff.st = st ∧ eff.r = r := by
  simp [Role.saveToDiscord, hg, newErrorMissingSnowflake, Error.isMissingSnowflake]

/-- C2, worked example: a fresh role (no guild id) saved with a non-nil
changes argument. -/
theorem saveToDiscord_missing_guildID_witness :
    NewRole.guildID.Empty = true ∧
    ∃ eff : Effect Nat,
      NewRole.saveToDiscord okSession 0 (discordSaver.Role serverRole) = Exec.ret eff ∧
      (∃ e, eff.err = some e ∧ e.isMissingSnowflake = true) ∧
      eff.calls = [] ∧ eff.st = 0 ∧ eff.r = NewRole :=
  ⟨by decide,
    saveToDiscord_missing_guildID NewRole okSession 0 (discordSaver.Role serverRole)
      (by decide)⟩

/-- C3: whenever `saveToDiscord` returns a non-nil error the role is the same
after the call as before it, `copyOf` included; and the error has one of three
causes: an empty guild id, a non-nil changes argument, or an error from the
session's `CreateGuildRole`. -/
theorem saveToDiscord_error_leaves_role {σ : Type} (r : Role) (session : Session σ) (st : σ)
    (changes : discordSaver) (eff : Effect σ)
    (hret : r.saveToDiscord session st changes = Exec.ret eff) (herr : eff.err ≠ none) :
    eff.r = r ∧
      (r.guildID.Empty = true ∨ changes ≠ discordSaver.Nil ∨
        (session.CreateGuildRole st r.guildID
          { Name := r.Name, Permissions := r.Permissions, Color := r.Color, Hoist := r.Hoist,
            Mentionable := r.Mentionable }).1.2 ≠ none) := by
  unfold Role.saveToDiscord at hret
  by_cases hg : r.guildID.Empty = true
  · simp only [hg, if_true, Exec.ret.injEq] at hret
    subst hret
    exact ⟨rfl, Or.inl hg⟩
  · simp only [hg] at hret
    cases changes with
    | Nil =>
      simp only [Bool.false_eq_true, if_false] at hret
      generalize session.CreateGuildRole st r.guildID
          { Name := r.Name, Permissions := r.Permissions, Color := r.Color, Hoist := r.Hoist,
            Mentionable := r.Mentionable } = res at hret ⊢
      obtain ⟨⟨ret, e⟩, st'⟩ := res
      cases e with
      | some e =>
        simp only [Exec.ret.injEq] at hret
        subst hret
        exact ⟨rfl, Or.inr (Or.inr (by simp))⟩
      | none =>
        cases ret with
        | none => simp at hret
        | some role =>
          simp only [Role.CopyOverTo, Exec.ret.injEq] at hret
          subst hret
          exact absurd rfl herr
    | Role c =>
      simp only [Bool.false_eq_true, if_false, Exec.ret.injEq] at hret
      subst hret
      exact ⟨rfl, Or.inr (Or.inl (by simp))⟩
    | Other t =>
      simp only [Bool.false_eq_true, if_false, Exec.ret.injEq] at hret
      subst hret
      exact ⟨rfl, Or.inr (Or.inl (by simp))⟩

/-- C3, worked example: the transport fails while creating a role of guild 7;
the role keeps every field. -/
theorem saveToDiscord_error_leaves_role_witness :
    draftRole.saveToDiscord failingSession 0 discordSaver.Nil =
        Exec.ret { r := draftRole, err := some (Error.Foreign 429),
                   calls := [SessionCall.CreateGuildRole 7
                     { Name := "draft", Permissions := 0, Color := 3, Hoist := false,
                       Mentionable := false }],
                   st := 1 } ∧
    (some (Error.Foreign 429) : Option Error) ≠ none ∧
    (draftRole = draftRole ∧
      (draftRole.guildID.Empty = true ∨ discordSaver.Nil ≠ discordSaver.Nil ∨
        (failingSession.CreateGuildRole 0 draftRole.guildID
          { Name := draftRole.Name, Permissions := draftRole.Permissions,
            Color := draftRole.Color, Hoist := draftRole.Hoist,
            Mentionable := draftRole.Mentionable }).1.2 ≠ none)) :=
  ⟨rfl, by simp,
    saveToDiscord_error_leaves_role draftRole failingSession 0 discordSaver.Nil
      { r := draftRole, err := some (Error.Foreign 429),
        calls := [SessionCall.CreateGuildRole 7
          { Name := "draft", Permissions := 0, Color := 3, Hoist := false,
            Mentionable := false }],
        st := 1 } rfl (by simp)⟩

/-- C4: `a.isACopyOf(b)` is true exactly when `a.copyOf == b.ID`, and it is
false for every argument that is not a `*Role` (nil included). -/
theorem isACopyOf_iff (a b : Role) :
    (a.isACopyOf (discordSaver.Role b) = true ↔ a.copyOf = b.ID) ∧
    (∀ t : Nat, a.isACopyOf (discordSaver.Other t) = false) ∧
    a.isACopyOf discordSaver.Nil = false := by
  simp [Role.isACopyOf]

/-! ## Theorems: deleting a role -/

/-- C5: `deleteFromDiscord` returns a missing-snowflake error without calling
the session exactly when the role id or the guild id is empty; otherwise it
calls `session.DeleteGuildRole(r.guildID, r.ID)` once and returns that call's
result as it is. The role is never changed. -/
theorem deleteFromDiscord_spec {σ : Type} (r : Role) (session : Session σ) (st : σ) :
    (((∃ e, (r.deleteFromDiscord session st).err = some e ∧ e.isMissingSnowflake = true) ∧
        (r.deleteFromDiscord session st).calls = []) ↔
      (r.ID.Empty = true ∨ r.guildID.Empty = true)) ∧
    (¬ (r.ID.Empty = true ∨ r.guildID.Empty = true) →
      (r.deleteFromDiscord session st).calls = [SessionCall.DeleteGuildRole r.guildID r.ID] ∧
      (r.deleteFromDiscord session st).err = (session.DeleteGuildRole st r.guildID r.ID).1 ∧
      (r.deleteFromDiscord session st).st = (session.DeleteGuildRole st r.guildID r.ID).2) ∧
    ((r.ID.Empty = true ∨ r.guildID.Empty = true) → (r.deleteFromDiscord session st).st = st) ∧
    (r.deleteFromDiscord session st).r = r := by
  unfold Role.deleteFromDiscord
  by_cases hi : r.ID.Empty = true
  · simp [hi, newErrorMissingSnowflake, Error.isMissingSnowflake]
  · by_cases hg : r.guildID.Empty = true
    · simp [hi, hg, newErrorMissingSnowflake, Error.isMissingSnowflake]
    · simp [hi, hg]

/-- C5, worked example: the server role (id 42, guild 7) is deleted with one
call whose failure is handed back; a role without guild id is refused without
a call. -/
theorem deleteFromDiscord_spec_witness :
    ((serverRole.deleteFromDiscord failingSession 0).calls = [SessionCall.DeleteGuildRole 7 42] ∧
      (serverRole.deleteFromDiscord failingSession 0).err = some (Error.Foreign 429) ∧
      (serverRole.deleteFromDiscord failingSession 0).st = 1) ∧
    (({ serverRole with guildID := 0 } : Role).deleteFromDiscord failingSession 0).st = 0 :=
  ⟨(deleteFromDiscord_spec serverRole failingSession 0).2.1 (by decide),
    (deleteFromDiscord_spec { serverRole with guildID := 0 } failingSession 0).2.2.1
      (Or.inr (by decide))⟩

/-- C6: `DeleteGuildRole` returns nil exactly when `client.Delete` gave no
error and a response with status 204; a transport error is handed back as it
is; and a response without error but with another status gives a non-nil
error. -/
theorem DeleteGuildRole_nil_iff {κ : Type} (routes : Routes) (client : Deleter κ) (k : κ)
    (guildID roleID : Snowflake) :
    ((∃ k', DeleteGuildRole routes client k guildID roleID = Exec.ret (none, k')) ↔
      ((client.Delete k { Ratelimiter := routes.ratelimitGuildRoles guildID,
                          Endpoint := routes.GuildRole guildID roleID }).1.2.2 = none ∧
        ∃ resp, (client.Delete k { Ratelimiter := routes.ratelimitGuildRoles guildID,
                                   Endpoint := routes.GuildRole guildID roleID }).1.1 = some resp ∧
          resp.StatusCode = 204)) ∧
    (∀ e, (client.Delete k { Ratelimiter := routes.ratelimitGuildRoles guildID,
                             Endpoint := routes.GuildRole guildID roleID }).1.2.2 = some e →
      DeleteGuildRole routes client k guildID roleID =
        Exec.ret (some e, (client.Delete k { Ratelimiter := routes.ratelimitGuildRoles guildID,
                                             Endpoint := routes.GuildRole guildID roleID }).2)) ∧
    (∀ resp, (client.Delete k { Ratelimiter := routes.ratelimitGuildRoles guildID,
                                Endpoint := routes.GuildRole guildID roleID }).1.2.2 = none →
      (client.Delete k { Ratelimiter := routes.ratelimitGuildRoles guildID,
                         Endpoint := routes.GuildRole guildID roleID }).1.1 = some resp →
      resp.StatusCode ≠ 204 →
      ∃ e k', DeleteGuildRole routes client k guildID roleID = Exec.ret (some e, k')) := by
  unfold DeleteGuildRole
  generalize client.Delete k { Ratelimiter := routes.ratelimitGuildRoles guildID,
                               Endpoint := routes.GuildRole guildID roleID } = res
  obtain ⟨⟨resp, body, err⟩, k'⟩ := res
  cases err with
  | some e => simp
  | none =>
    cases resp with
    | none => simp
    | some resp =>
      by_cases hs : resp.StatusCode = 204
      · simp [hs, StatusNoContent]
      · simp [hs, StatusNoContent]

/-- C6, worked example: a delete answered with HTTP 200 and no transport error
is reported as a failure. -/
theorem DeleteGuildRole_nil_iff_witness :
    ∃ e k', DeleteGuildRole discordRoutes (statusDeleter 200) 0 7 42 = Exec.ret (some e, k') :=
  (DeleteGuildRole_nil_iff discordRoutes (statusDeleter 200) 0 7 42).2.2
    { StatusCode := 200 } rfl rfl (by decide)

/-! ## Theorems: copying a role -/

/-- The value form and the store form of `CopyOverTo` agree on what the call
leaves in its argument, whether or not the argument is the receiver itself. -/
theorem Store.CopyOverTo_argument (mem : Store) (r role : RolePtr) :
    (mem r).CopyOverTo (Interface.Role (mem role)) =
      (Interface.Role ((Store.CopyOverTo mem r (InterfaceRef.Role role)).1 role), none) ∧
    (Store.CopyOverTo mem r (InterfaceRef.Role role)).2 = none := by
  by_cases h : r = role
  · subst h
    simp [Store.CopyOverTo, Store.assign, Role.CopyOverTo]
  · simp [Store.CopyOverTo, Store.assign, Role.CopyOverTo, h]

/-- C7, as stated, fails when source and destination are the same object: for
a role with id 42 and `copyOf` 9, the call `r.CopyOverTo(r)` returns no error
and leaves `copyOf` at 42, so the source is not unchanged. -/
theorem CopyOverTo_aliased_changes_source :
    (selfStore 0).ID = 42 ∧ (selfStore 0).copyOf = 9 ∧
    (Store.CopyOverTo selfStore 0 (InterfaceRef.Role 0)).2 = none ∧
    ((Store.CopyOverTo selfStore 0 (InterfaceRef.Role 0)).1 0).copyOf = 42 ∧
    (Store.CopyOverTo selfStore 0 (InterfaceRef.Role 0)).1 0 ≠ selfStore 0 := by
  refine ⟨rfl, rfl, rfl, rfl, ?_⟩
  intro h
  have h9 : ((Store.CopyOverTo selfStore 0 (InterfaceRef.Role 0)).1 0).copyOf = 9 := by
    rw [h]; rfl
  exact absurd h9 (by decide)

/-- C7, amended: for two distinct role objects `src` and `dst`,
`src.CopyOverTo(dst)` returns no error; afterwards `dst` has the ID, Name,
Color, Hoist, Position, Permissions, Managed, Mentionable and guildID of
`src`, its `copyOf` is the id of `src` (whatever `src.copyOf` is), and `src`,
like every object other than `dst`, is unchanged. Hence the duplicate of a
role is a copy of that role. -/
theorem CopyOverTo_distinct_spec (mem : Store) (src dst : RolePtr) (hne : src ≠ dst) :
    (Store.CopyOverTo mem src (InterfaceRef.Role dst)).2 = none ∧
    ((Store.CopyOverTo mem src (InterfaceRef.Role dst)).1 dst).ID = (mem src).ID ∧
    ((Store.CopyOverTo mem src (InterfaceRef.Role dst)).1 dst).Name = (mem src).Name ∧
    ((Store.CopyOverTo mem src (InterfaceRef.Role dst)).1 dst).Color = (mem src).Color ∧
    ((Store.CopyOverTo mem src (InterfaceRef.Role dst)).1 dst).Hoist = (mem src).Hoist ∧
    ((Store.CopyOverTo mem src (InterfaceRef.Role dst)).1 dst).Position = (mem src).Position ∧
    ((Store.CopyOverTo mem src (InterfaceRef.Role dst)).1 dst).Permissions =
      (mem src).Permissions ∧
    ((Store.CopyOverTo mem src (InterfaceRef.Role dst)).1 dst).Managed = (mem src).Managed ∧
    ((Store.CopyOverTo mem src (InterfaceRef.Role dst)).1 dst).Mentionable =
      (mem src).Mentionable ∧
    ((Store.CopyOverTo mem src (InterfaceRef.Role dst)).1 dst).guildID = (mem src).guildID ∧
    ((Store.CopyOverTo mem src (InterfaceRef.Role dst)).1 dst).copyOf = (mem src).ID ∧
    (Store.CopyOverTo mem src (InterfaceRef.Role dst)).1 src = mem src ∧
    (∀ p, p ≠ dst → (Store.CopyOverTo mem src (InterfaceRef.Role dst)).1 p = mem p) ∧
    (∀ r : Role, r.Duplicate.isACopyOf (discordSaver.Role r) = true) := by
  have hsrc : (Store.CopyOverTo mem src (InterfaceRef.Role dst)).1 src = mem src := by
    simp [Store.CopyOverTo, Store.assign, hne]
  have hother : ∀ p, p ≠ dst →
      (Store.CopyOverTo mem src (InterfaceRef.Role dst)).1 p = mem p := by
    intro p hp
    simp [Store.CopyOverTo, Store.assign, hp]
  have hdup : ∀ r : Role, r.Duplicate.isACopyOf (discordSaver.Role r) = true := by
    intro r
    simp [Role.CopyOverTo, Role.Duplicate, Role.isACopyOf]
  refine ⟨rfl, ?_, ?_, ?_, ?_, ?_, ?_, ?_, ?_, ?_, ?_, hsrc, hother, hdup⟩
  all_goals simp [Store.CopyOverTo, Store.assign, hne]

/-- C7 amended, worked example: the server role (id 42) at pointer 0 is copied
over the draft role (`copyOf` 9) at pointer 1. -/
theorem CopyOverTo_distinct_spec_witness :
    (0 : RolePtr) ≠ 1 ∧
    ((Store.CopyOverTo pairStore 0 (InterfaceRef.Role 1)).2 = none ∧
    ((Store.CopyOverTo pairStore 0 (InterfaceRef.Role 1)).1 1).ID = (pairStore 0).ID ∧
    ((Store.CopyOverTo pairStore 0 (InterfaceRef.Role 1)).1 1).Name = (pairStore 0).Name ∧
    ((Store.CopyOverTo pairStore 0 (InterfaceRef.Role 1)).1 1).Color = (pairStore 0).Color ∧
    ((Store.CopyOverTo pairStore 0 (InterfaceRef.Role 1)).1 1).Hoist = (pairStore 0).Hoist ∧
    ((Store.CopyOverTo pairStore 0 (InterfaceRef.Role 1)).1 1).Position =
      (pairStore 0).Position ∧
    ((Store.CopyOverTo pairStore 0 (InterfaceRef.Role 1)).1 1).Permissions =
      (pairStore 0).Permissions ∧
    ((Store.CopyOverTo pairStore 0 (InterfaceRef.Role 1)).1 1).Managed = (pairStore 0).Managed ∧
    ((Store.CopyOverTo pairStore 0 (InterfaceRef.Role 1)).1 1).Mentionable =
      (pairStore 0).Mentionable ∧
    ((Store.CopyOverTo pairStore 0 (InterfaceRef.Role 1)).1 1).guildID =
      (pairStore 0).guildID ∧
    ((Store.CopyOverTo pairStore 0 (InterfaceRef.Role 1)).1 1).copyOf = (pairStore 0).ID ∧
    (Store.CopyOverTo pairStore 0 (InterfaceRef.Role 1)).1 0 = pairStore 0 ∧
    (∀ p, p ≠ 1 → (Store.CopyOverTo pairStore 0 (InterfaceRef.Role 1)).1 p = pairStore p) ∧
    (∀ r : Role, r.Duplicate.isACopyOf (discordSaver.Role r) = true)) :=
  ⟨by decide, CopyOverTo_distinct_spec pairStore 0 1 (by decide)⟩

/-- C8: evaluation of the code at a fresh role and guild id 5. `SetGuildID`
stores the id in `ID` and leaves `guildID` empty, so the following
`saveToDiscord` is refused with the error "role has no guildID" and makes no
call on the session. -/
theorem SetGuildID_writes_ID :
    (NewRole.SetGuildID 5).ID = 5 ∧ (NewRole.SetGuildID 5).guildID = 0 ∧
    NewRole.ID = 0 ∧
    ∃ eff : Effect Nat,
      (NewRole.SetGuildID 5).saveToDiscord okSession 0 discordSaver.Nil = Exec.ret eff ∧
      eff.err = some (Error.MissingSnowflake "role has no guildID") ∧ eff.calls = [] := by
  refine ⟨rfl, rfl, rfl, ?_⟩
  simp [Role.saveToDiscord, Role.SetGuildID, NewRole, Snowflake.Empty, newErrorMissingSnowflake]

/-! ## Theorems: the connected-guild set -/

/-- C9: for every client state and guild id `g`: the add handler leaves the
set unchanged when `g` is already connected (adding `g` twice to the empty set
gives exactly the one entry `g`); the remove handler leaves the set unchanged
for an id that is not connected; and adding `g` to the empty set and then
removing it gives the empty set again. All observed through
`GetConnectedGuilds`. -/
theorem connectedGuilds_add_remove (c : Client) (g : Snowflake) :
    (g ∈ c.GetConnectedGuilds →
      (c.handlerAddToConnectedGuilds { Guild := NewPartialGuild g }).GetConnectedGuilds =
        c.GetConnectedGuilds) ∧
    ((NewClient.handlerAddToConnectedGuilds { Guild := NewPartialGuild g }
        ).handlerAddToConnectedGuilds { Guild := NewPartialGuild g }).GetConnectedGuilds = [g] ∧
    (g ∉ c.GetConnectedGuilds →
      (c.handlerRemoveFromConnectedGuilds { UnavailableGuild := { ID := g } }).GetConnectedGuilds =
        c.GetConnectedGuilds) ∧
    NewClient.GetConnectedGuilds = [] ∧
    ((NewClient.handlerAddToConnectedGuilds { Guild := NewPartialGuild g }
        ).handlerRemoveFromConnectedGuilds { UnavailableGuild := { ID := g } }).GetConnectedGuilds =
      [] := by
  refine ⟨?_, ?_, ?_, rfl, ?_⟩
  · intro h
    simp only [Client.GetConnectedGuilds] at h
    simp [Client.handlerAddToConnectedGuilds, Client.GetConnectedGuilds, NewPartialGuild, h]
  · simp [Client.handlerAddToConnectedGuilds, Client.GetConnectedGuilds, NewPartialGuild,
      NewClient]
  · intro h
    simp only [Client.GetConnectedGuilds] at h
    simp [Client.handlerRemoveFromConnectedGuilds, Client.GetConnectedGuilds, h]
  · simp [Client.handlerAddToConnectedGuilds, Client.handlerRemoveFromConnectedGuilds,
      Client.GetConnectedGuilds, NewPartialGuild, NewClient]

/-- C9, worked example: the scenario of `TestInternalStateHandlers`, guild 123
connected, then announced again, then the unknown guild 9999 removed. -/
theorem connectedGuilds_add_remove_witness :
    (({ connectedGuilds := [123] } : Client).handlerAddToConnectedGuilds
        { Guild := NewPartialGuild 123 }).GetConnectedGuilds = [123] ∧
    (({ connectedGuilds := [123] } : Client).handlerRemoveFromConnectedGuilds
        { UnavailableGuild := { ID := 9999 } }).GetConnectedGuilds = [123] :=
  ⟨(connectedGuilds_add_remove { connectedGuilds := [123] } 123).1 (by decide),
    (connectedGuilds_add_remove { connectedGuilds := [123] } 9999).2.2.1 (by decide)⟩

/-! ## Theorems: one-shot handlers -/

/-- C10: on a dispatcher without handlers, after `Once(E, h)` the one-shot
registry has one entry; the first `triggerHandlers` for `E` invokes `h` and
empties the registry; the second invokes nothing. In total `h` is invoked
exactly once. -/
theorem once_fires_exactly_once (E : String) (h : Handler) :
    NewDispatcher.listenOnceOnly.length = 0 ∧
    (NewDispatcher.Once E h).listenOnceOnly.length = 1 ∧
    ((NewDispatcher.Once E h).triggerHandlers E).1.listenOnceOnly.length = 0 ∧
    ((NewDispatcher.Once E h).triggerHandlers E).2 = [h] ∧
    ((((NewDispatcher.Once E h).triggerHandlers E).1).triggerHandlers E).1.listenOnceOnly.length
      = 0 ∧
    ((((NewDispatcher.Once E h).triggerHandlers E).1).triggerHandlers E).2 = [] ∧
    (((NewDispatcher.Once E h).triggerHandlers E).2 ++
      ((((NewDispatcher.Once E h).triggerHandlers E).1).triggerHandlers E).2).count h = 1 := by
  simp [NewDispatcher, Dispatcher.Once, Dispatcher.triggerHandlers, Registry.register,
    Registry.handlers, Registry.delete]

end Disgord
